import Mathlib

/-!
Verification of the terminal-detection engine (`src/termdetect.cc`,
`src/termdetect.hh`) against its natural-language specification.

The development shallowly embeds the probing-and-classification engine:
the reply decoders (`parse_da1`, `parse_da2`), the signature predicates
(`is_st`, `is_vte`, ...), the probe scheduler of the `info_impl`
constructor, the final classifier chain, the version derivation, and the
raw-mode transport (`make_request`).  Strings are modelled as Lean
`String`/`List Char`; the C++ `unsigned` overflow behaviour of
`std::from_chars` is modelled by an explicit `2 ^ 32` bound; a thrown
`std::out_of_range` from `std::string::substr` is modelled as `none`.
The terminal on the other side of the file descriptor is modelled as an
oracle mapping each probe to either a raw reply or a timeout.
-/

namespace Termdetect

/-- The six request kinds issued by the engine. -/
inductive Probe where
  | da1 | da2 | da3 | q | tn | osc702
  deriving DecidableEq, Repr

/-- Model of `enum struct implementations` from `termdetect.hh`. -/
inductive Implementations where
  | unknown | xterm | vte | foot | terminology | contour | rxvt | mrxvt
  | kitty | alacritty | st | konsole | eterm | emacsterm | qt5 | ghostty | rio
  deriving DecidableEq, Repr

/-- Model of `enum struct emulations` from `termdetect.hh`. -/
inductive Emulations where
  | unknown | vt100 | vt100avo | vt101 | vt102 | vt125 | vt131 | vt132
  | vt220 | vt240 | vt330 | vt340 | vt320 | vt382 | vt420 | vt510 | vt520 | vt525
  deriving DecidableEq, Repr

/-- The feature flags reachable from the code under verification: the images
of the `known_features` table plus the flags added by the classifier
(`desktopnotification`, `vertlinemarkers`, `decstbm`). -/
inductive Features where
  | col132 | printer | regis | sixel | selerase | drcs | udk | nrcs | scs
  | techcharset | locatorport | stateinterrogation | windowing | sessions
  | horscroll | ansicolors | greek | turkish | recteditcontour | textlocator
  | latin2 | pcterm | softkeymap | asciiemul | capturecontour
  | desktopnotification | decstbm | vertlinemarkers
  deriving DecidableEq, Repr

/-- Sentinel `constexpr auto not_issued = "<NOT ISSUED>"`. -/
def not_issued : String := "<NOT ISSUED>"

/-- Sentinel `constexpr auto no_reply = "<NO REPLY>"`. -/
def no_reply : String := "<NO REPLY>"

/-- Table `const std::array known_emulations` (order matters: first match wins). -/
def known_emulations : List (String × Emulations) :=
  [("0;", .vt100), ("1;0", .vt101), ("1;2", .vt100avo), ("2;", .vt240),
   ("4;6", .vt132), ("6;", .vt102), ("7;", .vt131), ("18;", .vt330),
   ("12;", .vt125), ("19;", .vt340), ("24;", .vt320), ("32;", .vt382),
   ("41;", .vt420), ("61;", .vt510), ("62;", .vt220), ("63;", .vt320),
   ("64;", .vt520), ("65;", .vt525), ("85;", .unknown), ("82;", .unknown)]

/-- Table `const std::map<unsigned, features> known_features`. -/
def known_features : List (Nat × Features) :=
  [(1, .col132), (2, .printer), (3, .regis), (4, .sixel), (6, .selerase),
   (7, .drcs), (8, .udk), (9, .nrcs), (12, .scs), (15, .techcharset),
   (16, .locatorport), (17, .stateinterrogation), (18, .windowing),
   (19, .sessions), (21, .horscroll), (22, .ansicolors), (23, .greek),
   (24, .turkish), (28, .recteditcontour), (29, .textlocator), (42, .latin2),
   (44, .pcterm), (45, .softkeymap), (46, .asciiemul), (314, .capturecontour)]

/-- Lookup in the `known_features` map (`known_features.find(code)`). -/
def knownLookup (code : Nat) : Option Features :=
  (known_features.find? (fun p => p.1 == code)).map Prod.snd

/-- Model of `starts_with` on the character-list view of a string (the kernel can
evaluate this, unlike `String.startsWith`). -/
def strStarts (s p : String) : Bool := p.data.isPrefixOf s.data

/-- Model of `ends_with` on the character-list view of a string. -/
def strEnds (s p : String) : Bool := p.data.isSuffixOf s.data

/-- Model of `substr(n)` (drop the first `n` characters). -/
def strDrop (s : String) (n : Nat) : String := String.mk (s.data.drop n)

/-- Drop the last `n` characters. -/
def strDropRight (s : String) (n : Nat) : String :=
  String.mk (s.data.take (s.data.length - n))

/-- The digit span consumed by `std::from_chars` for `unsigned`. -/
def fcDigits (l : List Char) : List Char := l.takeWhile Char.isDigit

/-- Numeric value of a digit string, as read by `std::from_chars`. -/
def digitsToNat (l : List Char) : Nat :=
  l.foldl (fun a c => 10 * a + (c.toNat - 48)) 0

/-- Model of `std::set<features>::insert` on the list model of the feature set. -/
def insertFeature (f : Features) (fs : List Features) : List Features :=
  if f ∈ fs then fs else fs ++ [f]

/-- The Evidence Record: the mutable state of `info` / `info_impl`. -/
structure Info where
  implementation : Implementations
  implementation_version : String
  emulation : Emulations
  feature_set : List Features
  unknown_features : String
  da1_reply : String
  da2_reply : String
  da2_reply_tail : String
  da3_reply : String
  q_reply : String
  tn_reply : String
  osc702_reply : String
  da2_alarmed : Bool
  vn : Nat
  da2_emulation : Emulations
  deriving DecidableEq, Repr

/-- The freshly constructed `info_impl` before any request is made. -/
def info0 : Info :=
  { implementation := .unknown
    implementation_version := ""
    emulation := .unknown
    feature_set := []
    unknown_features := ""
    da1_reply := not_issued
    da2_reply := not_issued
    da2_reply_tail := ""
    da3_reply := not_issued
    q_reply := not_issued
    tn_reply := not_issued
    osc702_reply := not_issued
    da2_alarmed := false
    vn := 0
    da2_emulation := .unknown }

/-! ### The DA1 decoder (`info_impl::parse_da1`) -/

/-- The prefix-stripping loop at the head of `parse_da1`: first table entry
matching as a textual prefix wins; otherwise a whole-string match against an
entry with its final character removed; `emulation` is only overwritten from
`unknown` (or, for the prefix branch, also from `vt100`). -/
def da1_strip : List (String × Emulations) → Emulations → List Char →
    Emulations × List Char
  | [], em, sv => (em, sv)
  | (p, e) :: rest, em, sv =>
    if p.data.isPrefixOf sv then
      ((if em = .unknown ∨ em = .vt100 then e else em), sv.drop p.data.length)
    else if sv.length = p.data.length - 1 ∧ sv = p.data.take (p.data.length - 1) then
      ((if em = .unknown then e else em), [])
    else da1_strip rest em sv

/-- The `while (!sv.empty())` token loop of `parse_da1`.  `fuel` is an upper
bound on the number of characters left (each iteration consumes at least
one character, so `fuel = sv.length` is exact).  A token must be a digit
string followed by `;` or the end of the reply; anything else (including a
`std::from_chars` range error, modelled by the `2 ^ 32` bound of C++
`unsigned`) stops the loop with the partial result. -/
def da1_loop : Nat → List Char → List Features → List Char →
    List Features × List Char
  | 0, _, fs, uf => (fs, uf)
  | fuel + 1, sv, fs, uf =>
    match sv with
    | [] => (fs, uf)
    | _ :: _ =>
      let ds := fcDigits sv
      if ds = [] ∨ 2 ^ 32 ≤ digitsToNat ds then (fs, uf)
      else
        match sv.drop ds.length, knownLookup (digitsToNat ds) with
        | [], some f => (insertFeature f fs, uf)
        | [], none => (fs, uf ++ ds)
        | c :: r2, some f =>
          if c = ';' then da1_loop fuel r2 (insertFeature f fs) uf else (fs, uf)
        | c :: r2, none =>
          if c = ';' then da1_loop fuel r2 fs (uf ++ ds ++ [';']) else (fs, uf)

/-- Model of `if (unknown_features.ends_with(";")) unknown_features.erase(size - 1)`. -/
def trimSemi (l : List Char) : List Char :=
  if l.getLast? = some ';' then l.dropLast else l

/-- The token-loop part of `parse_da1` run on the post-strip body with the
(empty) accumulators of a fresh record, including the trailing-separator
trim: returns the final `feature_set` and `unknown_features`. -/
def parse_da1_body (body : List Char) : List Features × List Char :=
  let r := da1_loop body.length body [] []
  (r.1, trimSemi r.2)

/-- Decoder `info_impl::parse_da1`. -/
def parse_da1 (s : Info) : Info :=
  let r0 := da1_strip known_emulations s.emulation s.da1_reply.data
  let r := da1_loop r0.2.length r0.2 s.feature_set s.unknown_features.data
  { s with emulation := r0.1, feature_set := r.1,
           unknown_features := String.mk (trimSemi r.2) }

/-! ### The DA2 decoder (`info_impl::parse_da2`) -/

/-- First `known_emulations` entry that is a textual prefix of the reply,
with the reply tail after removing it (the prefix scan of `parse_da2`). -/
def findEmuDrop : List (String × Emulations) → List Char →
    Option (Emulations × List Char)
  | [], _ => none
  | (p, e) :: rest, sv =>
    if p.data.isPrefixOf sv then some (e, sv.drop p.data.length)
    else findEmuDrop rest sv

/-- The `do { ... } while` loop consuming `.`-separated version components in
`parse_da2`.  Returns the number of characters consumed starting from the
dot under the cursor, and whether the last `std::from_chars` succeeded.
`fuel` bounds the iteration count; callers pass at least the length of the
remaining input, which suffices since every iteration consumes at least one
character. -/
def dotLoop : Nat → List Char → Nat × Bool
  | 0, _ => (0, false)
  | fuel + 1, rem =>
    let ds := fcDigits (rem.drop 1)
    let adv := 1 + ds.length
    let ok := decide (ds ≠ [] ∧ digitsToNat ds < 2 ^ 32)
    if ok && (rem.drop adv).head? == some '.' then
      let r := dotLoop fuel (rem.drop adv)
      (adv + r.1, r.2)
    else (adv, ok)

/-- Lines 324-340 of `parse_da2`: store the tail, optionally fold a
two-digit minor version into `vn`, and clear a trailing `";0"`.  The C++
reads `sv[0]` even when `sv` is empty; over a NUL-terminated `std::string`
that reads `'\0'`, which never equals `';'`, modelled by the `[]` case. -/
def da2_tail_fold (s : Info) (sv : List Char) : Info :=
  let s1 := { s with da2_reply_tail := String.mk sv }
  match sv with
  | [] => s1
  | c :: r =>
    if c = ';' then
      let ds2 := fcDigits r
      let vn2 := digitsToNat ds2
      let s2 :=
        if ds2 ≠ [] ∧ vn2 < 2 ^ 32 ∧ s1.vn < 10000 ∧ vn2 ≠ 0 ∧ vn2 < 100 then
          { s1 with vn := s1.vn * 100 + vn2,
                    da2_reply_tail := String.mk (sv.drop (1 + ds2.length)) }
        else s1
      if s2.da2_reply_tail = ";0" then { s2 with da2_reply_tail := "" } else s2
    else s1

/-- The version-number part of `parse_da2`, applied to the reply after the
emulation prefix has been handled. -/
def parse_da2_version (s : Info) (sv : List Char) : Info :=
  let k := (sv.findIdx? (· == ';')).getD sv.length
  let head := sv.take k
  let ds1 := fcDigits head
  if ds1 = [] ∨ 2 ^ 32 ≤ digitsToNat ds1 then s
  else
    let s1 := { s with vn := digitsToNat ds1 }
    let endp := ds1.length
    if (head.drop endp).head? = some '.' then
      let r := dotLoop head.length (head.drop endp)
      let endp2 := endp + r.1
      let s2 :=
        if r.2 && ((head.drop endp2).isEmpty || (head.drop endp2).head? == some ';') then
          { s1 with implementation_version := String.mk (sv.take endp2) }
        else s1
      if sv.drop endp2 = ";0".data then s2
      else da2_tail_fold s2 (sv.drop endp2)
    else da2_tail_fold s1 (sv.drop endp)

/-- Decoder `info_impl::parse_da2`. -/
def parse_da2 (s : Info) : Info :=
  let sv0 := s.da2_reply.data
  match findEmuDrop known_emulations sv0 with
  | some (e, sv1) =>
    parse_da2_version { s with da2_emulation := e, emulation := e } sv1
  | none =>
    if "1;".data.isPrefixOf sv0 then parse_da2_version s (sv0.drop 2)
    else parse_da2_version s sv0

/-! ### Signature predicates (`info_impl::is_*`) -/

/-- Predicate `info_impl::is_st`. -/
def is_st (s : Info) : Bool :=
  if s.implementation ≠ Implementations.unknown then s.implementation == .st
  else s.da1_reply == "6" && s.da2_alarmed

/-- Predicate `info_impl::is_alacritty`. -/
def is_alacritty (s : Info) : Bool :=
  if s.implementation ≠ Implementations.unknown then s.implementation == .alacritty
  else if s.da2_reply.length < 5 then false
  else
    let ds := fcDigits (s.da2_reply.data.drop 2)
    decide (ds ≠ [] ∧ digitsToNat ds < 2 ^ 32 ∧
      s.da2_reply.length - (2 + ds.length) = 2) &&
    s.da1_reply == "6" && strStarts s.da2_reply "0;" && strEnds s.da2_reply ";1"

/-- Predicate `info_impl::is_vte`. -/
def is_vte (s : Info) : Bool :=
  if s.implementation ≠ Implementations.unknown then s.implementation == .vte
  else s.da3_reply == "7E565445"

/-- Predicate `info_impl::is_not_vte` (definite exclusion of VTE, not the inverse of
`is_vte`). -/
def is_not_vte (s : Info) : Bool :=
  if s.implementation ≠ Implementations.unknown then s.implementation != .vte
  else !(strStarts s.da1_reply "65;") || !(strStarts s.da2_reply "65;") ||
    decide (Features.capturecontour ∈ s.feature_set)

/-- Predicate `info_impl::is_rxvt`. -/
def is_rxvt (s : Info) : Bool :=
  if s.implementation ≠ Implementations.unknown then s.implementation == .rxvt
  else strStarts s.da2_reply "85;" || strStarts s.da2_reply "82;"

/-- Predicate `info_impl::is_mrxvt`. -/
def is_mrxvt (s : Info) : Bool :=
  if s.implementation ≠ Implementations.unknown then s.implementation == .mrxvt
  else !(s.implementation_version == "") &&
    (strStarts s.da2_reply "85;" || strStarts s.da2_reply "82;")

/-- Predicate `info_impl::is_kitty`. -/
def is_kitty (s : Info) : Bool :=
  if s.implementation ≠ Implementations.unknown then s.implementation == .kitty
  else s.tn_reply == "787465726d2d6b69747479"

/-- Predicate `info_impl::is_xterm`. -/
def is_xterm (s : Info) : Bool :=
  if s.implementation ≠ Implementations.unknown then s.implementation == .xterm
  else strStarts s.q_reply "XTerm"

/-- Predicate `info_impl::is_contour`. -/
def is_contour (s : Info) : Bool :=
  if s.implementation ≠ Implementations.unknown then s.implementation == .contour
  else strStarts s.q_reply "contour"

/-- Predicate `info_impl::is_terminology`. -/
def is_terminology (s : Info) : Bool :=
  if s.implementation ≠ Implementations.unknown then s.implementation == .terminology
  else strStarts s.q_reply "terminology"

/-- Predicate `info_impl::is_konsole`. -/
def is_konsole (s : Info) : Bool :=
  if s.implementation ≠ Implementations.unknown then s.implementation == .konsole
  else strStarts s.q_reply "Konsole"

/-- Predicate `info_impl::is_eterm` (no evidence-based fallback in the source). -/
def is_eterm (s : Info) : Bool :=
  s.implementation == Implementations.eterm

/-- Predicate `info_impl::is_qt5`. -/
def is_qt5 (s : Info) : Bool :=
  if s.implementation ≠ Implementations.unknown then s.implementation == .qt5
  else s.da2_emulation == Emulations.vt100 && s.emulation == Emulations.vt100avo

/-- Predicate `info_impl::is_ghostty`. -/
def is_ghostty (s : Info) : Bool :=
  if s.implementation ≠ Implementations.unknown then s.implementation == .ghostty
  else strStarts s.q_reply "ghostty"

/-! ### Wire framing constants -/

def da1Pfx : String := "\x1b[?"
def da1Sfx : String := "c"
def da2Pfx : String := "\x1b[>"
def da2Sfx : String := "c"
def da3Pfx : String := "\x1bP!|"
def da3Sfx : String := "\x1b\\"
def qPfx : String := "\x1bP>|"
def qSfx : String := "\x1b\\"
def tnPfx : String := "\x1bP1+r544e="
def tnSfx : String := "\x1b\\"
def oscPfx : String := "\x1b]702;"
def oscSfx : String := "\x1b"

/-! ### The probe session (the `info_impl` constructor) -/

/-- The terminal on the other end of the file descriptor, together with the
process environment read by the constructor: for each probe either a raw
reply byte sequence (`some raw`) or silence until the poll timeout (`none`),
plus the value of the `TERM` environment variable.  The session model
assumes the terminal device was opened successfully and that raw-mode
switches and writes succeed; `make_request` below models the transport's
device-state discipline separately. -/
structure Terminal where
  resp : Probe → Option String
  term : Option String

/-- The reply handling of `make_request` as seen by the session: a timeout
stores the `no_reply` sentinel and reports failure; a reply is stored, with
the expected framing stripped when the reply is strictly longer than
prefix plus suffix and carries both. -/
def transport (r : Option String) (pfx sfx : String) : String × Bool :=
  match r with
  | none => (no_reply, true)
  | some raw =>
    if pfx.length + sfx.length < raw.length ∧
        strStarts raw pfx = true ∧ strEnds raw sfx = true then
      (strDropRight (strDrop raw pfx.length) sfx.length, false)
    else (raw, false)

/-- Model of `info_impl::make_da2_request` (stores the reply, records the timeout
flag `da2_alarmed`, and decodes). -/
def make_da2_request (t : Terminal) (s : Info) : Info :=
  let r := transport (t.resp .da2) da2Pfx da2Sfx
  parse_da2 { s with da2_reply := r.1, da2_alarmed := r.2 }

/-- Model of `info_impl::make_da1_request`. -/
def make_da1_request (t : Terminal) (s : Info) : Info :=
  parse_da1 { s with da1_reply := (transport (t.resp .da1) da1Pfx da1Sfx).1 }

/-- Model of `info_impl::make_da3_request`. -/
def make_da3_request (t : Terminal) (s : Info) : Info :=
  { s with da3_reply := (transport (t.resp .da3) da3Pfx da3Sfx).1 }

/-- Model of `info_impl::make_q_request`. -/
def make_q_request (t : Terminal) (s : Info) : Info :=
  { s with q_reply := (transport (t.resp .q) qPfx qSfx).1 }

/-- Model of `info_impl::make_tn_request`, including the replacement of the DCS error
code by `"???"`. -/
def make_tn_request (t : Terminal) (s : Info) : Info :=
  let r := (transport (t.resp .tn) tnPfx tnSfx).1
  { s with tn_reply := if strStarts r "\x1bP0" then "???" else r }

/-- Model of `info_impl::make_osc702_request`. -/
def make_osc702_request (t : Terminal) (s : Info) : Info :=
  { s with osc702_reply := (transport (t.resp .osc702) oscPfx oscSfx).1 }

/-- Lines 558-568 of the constructor: when both mandatory probes timed out,
classify from the `TERM` environment variable for the two families that
never reply. -/
def check_eterm (t : Terminal) (s : Info) : Info :=
  if s.da1_reply = no_reply ∧ s.da2_reply = no_reply then
    match t.term with
    | some term =>
      if strStarts term "eterm" then
        { s with implementation := .emacsterm, emulation := .vt100 }
      else if term = "Eterm" then
        { s with implementation := .eterm, emulation := .vt100 }
      else s
    | none => s
  else s

/-- The state after the two unconditional probes (DA2 first, then DA1) and
the `TERM` fallback check. -/
def afterMandatory (t : Terminal) : Info :=
  check_eterm t (make_da1_request t (make_da2_request t info0))

/-- Lines 575-582: the first name/version probe and the conditional
terminfo-name probe.  Returns the new state and the probes issued. -/
def blockQTN (t : Terminal) (s : Info) : Info × List Probe :=
  if is_not_vte s && !(is_rxvt s) then
    if !(is_rxvt (make_q_request t s)) && !(is_xterm (make_q_request t s)) &&
        !(is_contour (make_q_request t s)) &&
        !(is_terminology (make_q_request t s)) &&
        !(is_konsole (make_q_request t s)) then
      (make_tn_request t (make_q_request t s), [.q, .tn])
    else (make_q_request t s, [.q])
  else (s, [])

/-- Lines 584-593: the first tertiary-attributes probe and the
reconsidered name/version and terminfo-name probes. -/
def blockDA3 (t : Terminal) (s : Info) : Info × List Probe :=
  if !(is_kitty s) && !(is_rxvt s) then
    if is_not_vte (make_da3_request t s) && !(is_vte (make_da3_request t s)) &&
        !(is_xterm (make_da3_request t s)) &&
        !(is_konsole (make_da3_request t s)) then
      if !(is_terminology (make_q_request t (make_da3_request t s))) &&
          !(is_ghostty (make_q_request t (make_da3_request t s))) then
        (make_tn_request t (make_q_request t (make_da3_request t s)),
         [.da3, .q, .tn])
      else (make_q_request t (make_da3_request t s), [.da3, .q])
    else (make_da3_request t s, [.da3])
  else (s, [])

/-- Lines 598-609: the late tertiary-attributes probe and the default-color
probe, the latter only when the tertiary-attributes slot still holds the
`not_issued` sentinel.  (The `assert` about rxvt's OSC702 reply is not
modelled; it does not affect which probes are issued.) -/
def blockOSC (t : Terminal) (s : Info) : Info × List Probe :=
  if !(is_kitty s) && !(is_mrxvt s) then
    if !(is_rxvt s) && !(is_ghostty s) then
      if (make_da3_request t s).da3_reply = not_issued then
        (make_osc702_request t (make_da3_request t s), [.da3, .osc702])
      else (make_da3_request t s, [.da3])
    else
      if s.da3_reply = not_issued then (make_osc702_request t s, [.osc702])
      else (s, [])
  else (s, [])

/-- Lines 574-610: the optional probes, skipped altogether for the families
resolved (or known hopeless) after the two mandatory probes. -/
def optProbes (t : Terminal) (s : Info) : Info × List Probe :=
  if !(is_st s) && !(is_alacritty s) && !(is_eterm s) && !(is_qt5 s) then
    ((blockOSC t (blockDA3 t (blockQTN t s).1).1).1,
     (blockQTN t s).2 ++ (blockDA3 t (blockQTN t s).1).2 ++
       (blockOSC t (blockDA3 t (blockQTN t s).1).1).2)
  else (s, [])

/-- Lines 617-643: the classifier, a strict if/else-if chain evaluated in
source order. -/
def classify (s : Info) : Info :=
  if is_st s then { s with implementation := .st }
  else if s.da3_reply == "7E565445" then { s with implementation := .vte }
  else if s.da3_reply == "464f4f54" then { s with implementation := .foot }
  else if is_terminology s then { s with implementation := .terminology }
  else if is_contour s then { s with implementation := .contour }
  else if is_xterm s then { s with implementation := .xterm }
  else if is_mrxvt s then { s with implementation := .mrxvt }
  else if strStarts s.osc702_reply "rxvt" then { s with implementation := .rxvt }
  else if is_kitty s then { s with implementation := .kitty }
  else if is_alacritty s then { s with implementation := .alacritty }
  else if is_konsole s then { s with implementation := .konsole }
  else if is_qt5 s then { s with implementation := .qt5 }
  else if is_ghostty s then { s with implementation := .ghostty }
  else s

/-- Formatting via `std::format` of the version number as `major[.minor[.patch]]`
(lines 672-677). -/
def formatVersion (vn : Nat) : String :=
  if vn % 10000 = 0 then toString (vn / 10000)
  else if vn % 100 = 0 then
    toString (vn / 10000) ++ "." ++ toString (vn / 100 % 100)
  else
    toString (vn / 10000) ++ "." ++ toString (vn / 100 % 100) ++ "." ++
      toString (vn % 100)

/-- Lines 645-679: derivation of `implementation_version` when the DA2
decoder did not produce one.  `std::string::substr` throws
`std::out_of_range` when its start position exceeds the string length;
that exception is modelled as `none`. -/
def deriveVersion (s : Info) : Option Info :=
  if s.implementation_version ≠ "" then some s
  else if is_terminology s then
    if s.q_reply.length < 12 then none
    else some { s with implementation_version := strDrop s.q_reply 12 }
  else if is_konsole s then
    if s.q_reply.length < 8 then none
    else some { s with implementation_version := strDrop s.q_reply 8 }
  else if is_kitty s && strStarts s.q_reply "kitty(" &&
      strEnds s.q_reply ")" && decide (7 < s.q_reply.length) then
    some { s with implementation_version := strDropRight (strDrop s.q_reply 6) 1 }
  else
    let vn :=
      if is_rxvt s then s.vn / 10 * 10000 + s.vn % 10 * 100
      else if is_kitty s && decide (400000 < s.vn) then (s.vn - 400000) * 100
      else if is_xterm s then s.vn * 10000
      else if is_vte s then s.vn / 100
      else s.vn
    some { s with vn := vn, implementation_version := formatVersion vn }

/-- First `known_emulations` entry whose prefix matches (lines 683-687). -/
def findEmu : List (String × Emulations) → String → Option Emulations
  | [], _ => none
  | (p, e) :: rest, str =>
    if strStarts str p then some e else findEmu rest str

/-- Lines 681-688: for Alacritty, retry the emulation match on the DA1
reply extended with a trailing separator. -/
def fixupAlacrittyEmulation (s : Info) : Info :=
  if is_alacritty s && s.emulation == Emulations.vt100 then
    match findEmu known_emulations (s.da1_reply ++ ";") with
    | some e => { s with emulation := e }
    | none => s
  else s

/-- Lines 690-699: post-classification feature augmentation, including the
unconditional `decstbm` assumption. -/
def featureAugment (s : Info) : Info :=
  let s1 :=
    if is_kitty s then
      { s with feature_set := insertFeature .desktopnotification s.feature_set }
    else s
  let s2 :=
    if is_contour s1 then
      { s1 with feature_set := insertFeature .vertlinemarkers s1.feature_set }
    else s1
  { s2 with feature_set := insertFeature .decstbm s2.feature_set }

/-- The state of the Evidence Record after all probes, before the
classifier runs. -/
def probedInfo (t : Terminal) : Info := (optProbes t (afterMandatory t)).1

/-- The probes issued during a session, in order. -/
def sessionTrace (t : Terminal) : List Probe :=
  Probe.da2 :: Probe.da1 :: (optProbes t (afterMandatory t)).2

/-- The completed detection session: classification, version derivation
(`none` models the unhandled `std::out_of_range`), emulation fixup and
feature augmentation. -/
def sessionInfo (t : Terminal) : Option Info :=
  (deriveVersion (classify (probedInfo t))).map
    (fun s => featureAugment (fixupAlacrittyEmulation s))

/-! ### The raw-mode transport (`make_request`) with device state -/

/-- Result of one `read` attempt on the device. -/
inductive ReadOutcome where
  | timeout
  | readfail
  | ok (raw : String)
  deriving DecidableEq, Repr

/-- The terminal device as the transport sees it: its current mode
attributes (abstract), whether `tcsetattr` to raw mode succeeds (it fails
for a background process without terminal access), whether the `write`
completes, what one `read` yields, and the log of successfully written
requests. -/
structure Device where
  attrs : Nat
  rawSwitchOk : Bool
  writeOk : Bool
  readRes : ReadOutcome
  writes : List String
  deriving DecidableEq, Repr

/-- Model of `cfmakeraw`: the raw-mode attribute set.  Only the fact that the mode
changes and is later restored matters to the specification, so the raw
attribute value is abstracted to a fixed constant. -/
def cfmakeraw (_t : Nat) : Nat := 0

/-- Result of `make_request`: the device afterwards, the reply buffer, and
the returned `!rok` flag. -/
structure ReqResult where
  dev : Device
  res : String
  ret : Bool
  deriving DecidableEq, Repr

/-- Transport `make_request` (lines 181-223): save the mode, switch to raw (failing
fast without a write when the switch fails), write the request, poll with
the configured delay, read, unconditionally restore the saved mode, and
strip the expected framing from a successful reply. -/
def make_request (d : Device) (res0 req pfx sfx : String) : ReqResult :=
  let t_old := d.attrs
  if !d.rawSwitchOk then { dev := d, res := res0, ret := false }
  else
    let d1 := { d with attrs := cfmakeraw t_old }
    if !d.writeOk then { dev := { d1 with attrs := t_old }, res := res0, ret := true }
    else
      let d2 := { d1 with writes := d1.writes ++ [req] }
      match d.readRes with
      | .timeout => { dev := { d2 with attrs := t_old }, res := no_reply, ret := true }
      | .readfail => { dev := { d2 with attrs := t_old }, res := res0, ret := true }
      | .ok raw =>
        let res :=
          if pfx.length + sfx.length < raw.length ∧
              strStarts raw pfx = true ∧ strEnds raw sfx = true then
            strDropRight (strDrop raw pfx.length) sfx.length
          else raw
        { dev := { d2 with attrs := t_old }, res := res, ret := false }

/-! ### The request-delay policy -/

/-- Model of `get_default_request_delay` (lines 166-177): 500 ms when `DISPLAY` is
set, non-empty and does not begin with `:` (likely a remote session),
otherwise 100 ms.  `display[0] != '\0'` is the non-emptiness test on the C
string (environment values cannot contain an embedded NUL). -/
def get_default_request_delay (display : Option String) : Nat :=
  match display with
  | none => 100
  | some d =>
    match d.data with
    | [] => 100
    | c :: _ => if c ≠ ':' then 500 else 100

/-- Lines 512-513 of the constructor: initialize the process-wide delay
only when it has no value yet. -/
def init_request_delay (cur : Option Nat) (display : Option String) : Option Nat :=
  match cur with
  | some v => some v
  | none => some (get_default_request_delay display)

/-! ### Specification-side vocabulary for the DA1 token invariant -/

/-- The semicolon-delimited tokens of a reply body. -/
def splitSem : List Char → List (List Char)
  | [] => [[]]
  | c :: r =>
    match splitSem r with
    | [] => [[]]
    | tk :: ts => if c = ';' then [] :: tk :: ts else (c :: tk) :: ts

/-- Semicolon-joining of a token list (inverse of `splitSem`). -/
def joinSem : List (List Char) → List Char
  | [] => []
  | [tk] => tk
  | tk :: ts => tk ++ ';' :: joinSem ts

/-- A well-formed DA1 token: non-empty, all digits, in range of C++
`unsigned` (so `std::from_chars` accepts it). -/
def WFtok (tk : List Char) : Prop :=
  tk ≠ [] ∧ (∀ c ∈ tk, c.isDigit = true) ∧ digitsToNat tk < 2 ^ 32

instance (tk : List Char) : Decidable (WFtok tk) := by
  unfold WFtok; infer_instance

/-- Whether a token's code is absent from the `known_features` table. -/
def isUnknownTok (tk : List Char) : Bool :=
  (knownLookup (digitsToNat tk)).isNone

/-- The `unknown_features` accumulator produced by the DA1 token loop
before the trailing-separator trim: every unknown token is appended
verbatim, together with the separator that followed it in the reply. -/
def preUF : List (List Char) → List Char
  | [] => []
  | [tk] => if isUnknownTok tk then tk else []
  | tk :: ts => (if isUnknownTok tk then tk ++ [';'] else []) ++ preUF ts

/-- The feature set produced by folding the token list through the
known-feature table. -/
def specFS (L : List (List Char)) (fs : List Features) : List Features :=
  L.foldl (fun a tk =>
    match knownLookup (digitsToNat tk) with
    | some f => insertFeature f a
    | none => a) fs

/-! ### Concrete fixtures -/

/-- The VTE-family signature fixture of the end-to-end claim: framed
primary reply `"65;1;9c"`, secondary `"65;9600;1c"`, tertiary
`"7E565445"`, silence elsewhere. -/
def vteT : Terminal :=
  { resp := fun p =>
      match p with
      | .da1 => some "\x1b[?65;1;9c"
      | .da2 => some "\x1b[>65;9600;1c"
      | .da3 => some "\x1bP!|7E565445\x1b\\"
      | _ => none
    term := none }

/-- A terminal that never answers anything, with `TERM=eterm` (Emacs
Term). -/
def etermT : Terminal := { resp := fun _ => none, term := some "eterm" }

/-- A terminal that never answers anything, `TERM` unset. -/
def timeoutT : Terminal := { resp := fun _ => none, term := none }

/-- A terminal whose name/version reply is exactly the word
`"terminology"` with no version text after it. -/
def terminologyT : Terminal :=
  { resp := fun p =>
      match p with
      | .da1 => some "\x1b[?64;1;9;22c"
      | .da2 => some "\x1b[>61;337;0c"
      | .q => some "\x1bP>|terminology\x1b\\"
      | _ => none
    term := none }

/-- An rxvt-signature terminal: DA2 announces the `85;` family, only the
default-color query is answered among the optional probes. -/
def rxvtT : Terminal :=
  { resp := fun p =>
      match p with
      | .da1 => some "\x1b[?1;2c"
      | .da2 => some "\x1b[>85;123;0c"
      | .osc702 => some "\x1b]702;rxvt;1\x1b"
      | _ => none
    term := none }

/-- A device on which the raw-mode switch succeeds and the poll times
out. -/
def devOk : Device :=
  { attrs := 7, rawSwitchOk := true, writeOk := true,
    readRes := .timeout, writes := [] }

/-- A device on which the raw-mode switch fails (background process). -/
def devBg : Device := { devOk with rawSwitchOk := false }

/-- An Evidence Record with classification already run (used to witness
the predicate short-circuit facts). -/
def vteInfo : Info := { info0 with implementation := Implementations.vte }

/-! ## Theorems -/

/-- Unfolding equation of `joinSem` on a list with at least two tokens. -/
theorem joinSem_cons (tk tk' : List Char) (ts : List (List Char)) :
    joinSem (tk :: tk' :: ts) = tk ++ ';' :: joinSem (tk' :: ts) := rfl

/-- Unfolding equation of `preUF` on a list with at least two tokens. -/
theorem preUF_cons (tk tk' : List Char) (ts : List (List Char)) :
    preUF (tk :: tk' :: ts) =
      (if isUnknownTok tk then tk ++ [';'] else []) ++ preUF (tk' :: ts) := rfl

/-- A string of digits is consumed whole by `std::from_chars`. -/
theorem fcDigits_all {tk : List Char} (h : ∀ c ∈ tk, c.isDigit = true) :
    fcDigits tk = tk := by
  induction tk with
  | nil => rfl
  | cons c r ih =>
    have hc := h c (List.mem_cons_self c r)
    have hr := ih (fun x hx => h x (List.mem_cons_of_mem c hx))
    unfold fcDigits at hr ⊢
    rw [List.takeWhile_cons_of_pos hc, hr]

/-- Parsing by `std::from_chars` stops at the separator after a digit token. -/
theorem fcDigits_append (tk r : List Char) (h : ∀ c ∈ tk, c.isDigit = true) :
    fcDigits (tk ++ ';' :: r) = tk := by
  induction tk with
  | nil =>
    unfold fcDigits
    exact List.takeWhile_cons_of_neg (by decide)
  | cons c tk ih =>
    have hc := h c (List.mem_cons_self c tk)
    have hr := ih (fun x hx => h x (List.mem_cons_of_mem c hx))
    unfold fcDigits at hr ⊢
    rw [List.cons_append, List.takeWhile_cons_of_pos hc, hr]

/-- One iteration of the DA1 token loop on the final token of the body. -/
theorem da1_loop_last (fuel : Nat) (tk : List Char) (fs : List Features)
    (uf : List Char) (h1 : tk ≠ []) (h2 : ∀ c ∈ tk, c.isDigit = true)
    (h3 : digitsToNat tk < 2 ^ 32) :
    da1_loop (fuel + 1) tk fs uf =
      match knownLookup (digitsToNat tk) with
      | some f => (insertFeature f fs, uf)
      | none => (fs, uf ++ tk) := by
  obtain ⟨c, tk0, rfl⟩ : ∃ c tk0, tk = c :: tk0 := by
    cases tk with
    | nil => exact absurd rfl h1
    | cons c tk0 => exact ⟨c, tk0, rfl⟩
  have hfc : fcDigits (c :: tk0) = c :: tk0 := fcDigits_all h2
  simp only [da1_loop, hfc]
  rw [if_neg (not_or.mpr ⟨by simp, Nat.not_le.mpr h3⟩)]
  rw [List.drop_length]
  cases hk : knownLookup (digitsToNat (c :: tk0)) <;> simp [hk]

/-- One iteration of the DA1 token loop on a token followed by the
separator. -/
theorem da1_loop_step (fuel : Nat) (tk r : List Char) (fs : List Features)
    (uf : List Char) (h1 : tk ≠ []) (h2 : ∀ c ∈ tk, c.isDigit = true)
    (h3 : digitsToNat tk < 2 ^ 32) :
    da1_loop (fuel + 1) (tk ++ ';' :: r) fs uf =
      match knownLookup (digitsToNat tk) with
      | some f => da1_loop fuel r (insertFeature f fs) uf
      | none => da1_loop fuel r fs (uf ++ tk ++ [';']) := by
  obtain ⟨c, tk0, rfl⟩ : ∃ c tk0, tk = c :: tk0 := by
    cases tk with
    | nil => exact absurd rfl h1
    | cons c tk0 => exact ⟨c, tk0, rfl⟩
  have hfc : fcDigits (c :: tk0 ++ ';' :: r) = c :: tk0 := fcDigits_append _ _ h2
  have hdrop : (c :: tk0 ++ ';' :: r).drop (c :: tk0).length = ';' :: r :=
    List.drop_left _ _
  rw [List.cons_append] at hfc hdrop ⊢
  simp only [da1_loop, hfc, hdrop]
  rw [if_neg (not_or.mpr ⟨by simp, Nat.not_le.mpr h3⟩)]
  cases hk : knownLookup (digitsToNat (c :: tk0)) <;> simp [hk]

/-- The DA1 token loop on a semicolon-joined list of well-formed tokens
computes exactly the fold of the known-feature table over the tokens and
appends every unknown token (with its separator) to the accumulator. -/
theorem da1_loop_join :
    ∀ (fuel : Nat) (L : List (List Char)) (fs : List Features) (uf : List Char),
      (∀ tk ∈ L, WFtok tk) → L ≠ [] → (joinSem L).length ≤ fuel →
      da1_loop fuel (joinSem L) fs uf = (specFS L fs, uf ++ preUF L) := by
  intro fuel
  induction fuel with
  | zero =>
    intro L fs uf hWF hne hlen
    exfalso
    match L with
    | [tk] =>
      have h1 := (hWF tk (by simp)).1
      have : tk = [] := List.length_eq_zero.mp (Nat.le_zero.mp hlen)
      exact h1 this
    | tk :: tk' :: ts =>
      rw [joinSem_cons] at hlen
      simp [List.length_append] at hlen
  | succ fuel ih =>
    intro L fs uf hWF hne hlen
    match L with
    | [tk] =>
      obtain ⟨h1, h2, h3⟩ := hWF tk (by simp)
      show da1_loop (fuel + 1) tk fs uf = _
      rw [da1_loop_last fuel tk fs uf h1 h2 h3]
      cases hk : knownLookup (digitsToNat tk) <;>
        simp [specFS, preUF, isUnknownTok, hk]
    | tk :: tk' :: ts =>
      obtain ⟨h1, h2, h3⟩ := hWF tk (by simp)
      have hWF' : ∀ x ∈ tk' :: ts, WFtok x := fun x hx => hWF x (by simp [hx])
      have hlen' : (joinSem (tk' :: ts)).length ≤ fuel := by
        rw [joinSem_cons] at hlen
        have htk : 1 ≤ tk.length := List.length_pos.mpr h1
        simp [List.length_append] at hlen
        omega
      rw [joinSem_cons, da1_loop_step fuel tk (joinSem (tk' :: ts)) fs uf h1 h2 h3]
      have e1 : specFS (tk :: tk' :: ts) fs =
          specFS (tk' :: ts)
            (match knownLookup (digitsToNat tk) with
             | some f => insertFeature f fs
             | none => fs) := rfl
      cases hk : knownLookup (digitsToNat tk) with
      | some f =>
        show da1_loop fuel (joinSem (tk' :: ts)) (insertFeature f fs) uf = _
        rw [ih (tk' :: ts) (insertFeature f fs) uf hWF' (by simp) hlen']
        rw [e1, hk, preUF_cons]
        simp [isUnknownTok, hk]
      | none =>
        show da1_loop fuel (joinSem (tk' :: ts)) fs (uf ++ tk ++ [';']) = _
        rw [ih (tk' :: ts) fs (uf ++ tk ++ [';']) hWF' (by simp) hlen']
        rw [e1, hk, preUF_cons]
        simp [isUnknownTok, hk, List.append_assoc]

/-- Running the classifier chain a second time cannot change the
implementation: every signature predicate short-circuits on the decided
implementation, and the branches keyed on raw reply content are reached in
the same order both times. -/
theorem classify_classify (s : Info) :
    (classify (classify s)).implementation = (classify s).implementation := by
  by_cases h1 : is_st s = true
  · have e : classify s = { s with implementation := .st } := by
      simp [classify, h1]
    simp only [e]; simp +decide [classify, is_st]
  by_cases h2 : (s.da3_reply == "7E565445") = true
  · have e : classify s = { s with implementation := .vte } := by
      simp [classify, h1, h2]
    simp only [e]; simp +decide [classify, is_st, h2]
  by_cases h3 : (s.da3_reply == "464f4f54") = true
  · have e : classify s = { s with implementation := .foot } := by
      simp [classify, h1, h2, h3]
    simp only [e]; simp +decide [classify, is_st, h2, h3]
  by_cases h4 : is_terminology s = true
  · have e : classify s = { s with implementation := .terminology } := by
      simp [classify, h1, h2, h3, h4]
    simp only [e]; simp +decide [classify, is_st, is_terminology, h2, h3]
  by_cases h5 : is_contour s = true
  · have e : classify s = { s with implementation := .contour } := by
      simp [classify, h1, h2, h3, h4, h5]
    simp only [e]
    simp +decide [classify, is_st, is_terminology, is_contour, h2, h3]
  by_cases h6 : is_xterm s = true
  · have e : classify s = { s with implementation := .xterm } := by
      simp [classify, h1, h2, h3, h4, h5, h6]
    simp only [e]
    simp +decide [classify, is_st, is_terminology, is_contour, is_xterm, h2, h3]
  by_cases h7 : is_mrxvt s = true
  · have e : classify s = { s with implementation := .mrxvt } := by
      simp [classify, h1, h2, h3, h4, h5, h6, h7]
    simp only [e]
    simp +decide [classify, is_st, is_terminology, is_contour, is_xterm,
      is_mrxvt, h2, h3]
  by_cases h8 : strStarts s.osc702_reply "rxvt" = true
  · have e : classify s = { s with implementation := .rxvt } := by
      simp [classify, h1, h2, h3, h4, h5, h6, h7, h8]
    simp only [e]
    simp +decide [classify, is_st, is_terminology, is_contour, is_xterm,
      is_mrxvt, h2, h3, h8]
  by_cases h9 : is_kitty s = true
  · have e : classify s = { s with implementation := .kitty } := by
      simp [classify, h1, h2, h3, h4, h5, h6, h7, h8, h9]
    simp only [e]
    simp +decide [classify, is_st, is_terminology, is_contour, is_xterm,
      is_mrxvt, is_kitty, h2, h3, h8]
  by_cases h10 : is_alacritty s = true
  · have e : classify s = { s with implementation := .alacritty } := by
      simp [classify, h1, h2, h3, h4, h5, h6, h7, h8, h9, h10]
    simp only [e]
    simp +decide [classify, is_st, is_terminology, is_contour, is_xterm,
      is_mrxvt, is_kitty, is_alacritty, h2, h3, h8]
  by_cases h11 : is_konsole s = true
  · have e : classify s = { s with implementation := .konsole } := by
      simp [classify, h1, h2, h3, h4, h5, h6, h7, h8, h9, h10, h11]
    simp only [e]
    simp +decide [classify, is_st, is_terminology, is_contour, is_xterm,
      is_mrxvt, is_kitty, is_alacritty, is_konsole, h2, h3, h8]
  by_cases h12 : is_qt5 s = true
  · have e : classify s = { s with implementation := .qt5 } := by
      simp [classify, h1, h2, h3, h4, h5, h6, h7, h8, h9, h10, h11, h12]
    simp only [e]
    simp +decide [classify, is_st, is_terminology, is_contour, is_xterm,
      is_mrxvt, is_kitty, is_alacritty, is_konsole, is_qt5, h2, h3, h8]
  by_cases h13 : is_ghostty s = true
  · have e : classify s = { s with implementation := .ghostty } := by
      simp [classify, h1, h2, h3, h4, h5, h6, h7, h8, h9, h10, h11, h12, h13]
    simp only [e]
    simp +decide [classify, is_st, is_terminology, is_contour, is_xterm,
      is_mrxvt, is_kitty, is_alacritty, is_konsole, is_qt5, is_ghostty,
      h2, h3, h8]
  · have e : classify s = s := by
      simp [classify, h1, h2, h3, h4, h5, h6, h7, h8, h9, h10, h11, h12, h13]
    simp only [e]

/-- Membership in the list model of `std::set::insert`. -/
theorem mem_insertFeature (f g : Features) (fs : List Features) :
    f ∈ insertFeature g fs ↔ f = g ∨ f ∈ fs := by
  unfold insertFeature
  split
  · rename_i h
    constructor
    · exact Or.inr
    · rintro (rfl | h')
      · exact h
      · exact h'
  · simp [List.mem_append, or_comm]

/-- Membership in the feature-set fold: a flag is present exactly when it
was present initially or some token's code maps to it. -/
theorem specFS_mem :
    ∀ (L : List (List Char)) (fs : List Features) (f : Features),
      f ∈ specFS L fs ↔
        f ∈ fs ∨ ∃ tk, tk ∈ L ∧ knownLookup (digitsToNat tk) = some f := by
  intro L
  induction L with
  | nil => intro fs f; simp [specFS]
  | cons tk ts ih =>
    intro fs f
    have e : specFS (tk :: ts) fs =
        specFS ts
          (match knownLookup (digitsToNat tk) with
           | some g => insertFeature g fs
           | none => fs) := rfl
    rw [e]
    cases hk : knownLookup (digitsToNat tk) with
    | some g =>
      rw [ih]
      simp only [mem_insertFeature, List.mem_cons]
      constructor
      · rintro ((rfl | hf) | ⟨tk', htk', hl⟩)
        · exact Or.inr ⟨tk, Or.inl rfl, by rw [hk]⟩
        · exact Or.inl hf
        · exact Or.inr ⟨tk', Or.inr htk', hl⟩
      · rintro (hf | ⟨tk', (rfl | htk'), hl⟩)
        · exact Or.inl (Or.inr hf)
        · rw [hk] at hl
          exact Or.inl (Or.inl (Option.some_injective _ hl).symm)
        · exact Or.inr ⟨tk', htk', hl⟩
    | none =>
      rw [ih]
      simp only [List.mem_cons]
      constructor
      · rintro (hf | ⟨tk', htk', hl⟩)
        · exact Or.inl hf
        · exact Or.inr ⟨tk', Or.inr htk', hl⟩
      · rintro (hf | ⟨tk', (rfl | htk'), hl⟩)
        · exact Or.inl hf
        · rw [hk] at hl; cases hl
        · exact Or.inr ⟨tk', htk', hl⟩

/-- The last character of a non-empty digit token is not a separator. -/
theorem digit_getLast_ne (tk : List Char) (h2 : ∀ c ∈ tk, c.isDigit = true) :
    tk.getLast? ≠ some ';' := by
  intro hc
  rw [List.getLast?_eq_head?_reverse, List.head?_eq_some_iff] at hc
  obtain ⟨t, ht⟩ := hc
  have hm : ';' ∈ tk := by
    rw [← List.mem_reverse, ht]
    simp
  have := h2 ';' hm
  simp at this

/-- A semicolon-join of non-empty well-formed tokens is non-empty. -/
theorem joinSem_ne_nil (L : List (List Char)) (hL : L ≠ [])
    (h : ∀ tk ∈ L, WFtok tk) : joinSem L ≠ [] := by
  match L with
  | [tk] => exact (h tk (by simp)).1
  | tk :: tk' :: ts =>
    rw [joinSem_cons]
    simp

/-- A semicolon-join of well-formed tokens never ends in the separator. -/
theorem joinSem_getLast_ne :
    ∀ (L : List (List Char)), (∀ tk ∈ L, WFtok tk) →
      (joinSem L).getLast? ≠ some ';' := by
  intro L
  induction L with
  | nil => simp [joinSem]
  | cons tk ts ih =>
    intro h
    cases ts with
    | nil => exact digit_getLast_ne tk (h tk (by simp)).2.1
    | cons tk' ts' =>
      rw [joinSem_cons, List.getLast?_append]
      have hR := ih (fun x hx => h x (by simp [hx]))
      have hRnil : joinSem (tk' :: ts') ≠ [] :=
        joinSem_ne_nil _ (by simp) (fun x hx => h x (by simp [hx]))
      have hsome : (joinSem (tk' :: ts')).getLast?.isSome := by
        rw [List.getLast?_eq_head?_reverse, List.head?_isSome]
        simpa using hRnil
      obtain ⟨x, hx⟩ := Option.isSome_iff_exists.mp hsome
      have hcons : (';' :: joinSem (tk' :: ts')).getLast? = some x := by
        rw [show (';' :: joinSem (tk' :: ts')) = [';'] ++ joinSem (tk' :: ts')
          from rfl, List.getLast?_append, hx]
        rfl
      rw [hcons]
      rw [show (some x).or tk.getLast? = some x from rfl]
      intro hcon
      exact hR (hx.trans hcon)

/-- The pre-trim `unknown_features` accumulator is the join of all unknown
tokens, possibly with one trailing separator (present exactly when the
join is non-empty and the last reply token was known). -/
theorem preUF_spec :
    ∀ (L : List (List Char)), (∀ tk ∈ L, WFtok tk) →
      preUF L = joinSem (L.filter isUnknownTok) ∨
      (preUF L = joinSem (L.filter isUnknownTok) ++ [';'] ∧
        L.filter isUnknownTok ≠ []) := by
  intro L
  induction L with
  | nil => intro _; exact Or.inl rfl
  | cons tk ts ih =>
    intro h
    have hts := ih (fun x hx => h x (by simp [hx]))
    cases ts with
    | nil =>
      by_cases hu : isUnknownTok tk = true
      · exact Or.inl (by simp [preUF, hu, joinSem])
      · exact Or.inl (by simp [preUF, hu, joinSem])
    | cons tk' ts' =>
      by_cases hu : isUnknownTok tk = true
      · rw [preUF_cons, if_pos hu]
        have hfe : (tk :: tk' :: ts').filter isUnknownTok =
            tk :: (tk' :: ts').filter isUnknownTok := by
          rw [List.filter_cons_of_pos hu]
        rcases hts with h1 | ⟨h2, hne2⟩
        · cases hfil : (tk' :: ts').filter isUnknownTok with
          | nil =>
            rw [hfil] at h1
            rw [h1, hfe, hfil]
            exact Or.inr ⟨by simp [joinSem], by simp⟩
          | cons u us =>
            rw [hfil] at h1
            rw [h1, hfe, hfil, joinSem_cons]
            exact Or.inl (by simp)
        · cases hfil : (tk' :: ts').filter isUnknownTok with
          | nil => exact absurd hfil hne2
          | cons u us =>
            rw [hfil] at h2
            rw [h2, hfe, hfil, joinSem_cons]
            exact Or.inr ⟨by simp, by simp⟩
      · rw [preUF_cons, if_neg hu]
        have hfe : (tk :: tk' :: ts').filter isUnknownTok =
            (tk' :: ts').filter isUnknownTok := by
          rw [List.filter_cons_of_neg (by simpa using hu)]
        rw [List.nil_append, hfe]
        exact hts

/-- Trimming the trailing separator from the accumulator yields exactly
the semicolon-join of the unknown tokens. -/
theorem trim_preUF (L : List (List Char)) (h : ∀ tk ∈ L, WFtok tk) :
    trimSemi (preUF L) = joinSem (L.filter isUnknownTok) := by
  have hWFf : ∀ tk ∈ L.filter isUnknownTok, WFtok tk := by
    intro tk htk
    exact h tk (List.mem_of_mem_filter htk)
  rcases preUF_spec L h with h1 | ⟨h2, hne⟩
  · rw [h1]
    unfold trimSemi
    rw [if_neg (joinSem_getLast_ne _ hWFf)]
  · rw [h2]
    unfold trimSemi
    rw [if_pos (List.getLast?_concat _), List.dropLast_concat]

/-- Splitting via `splitSem` always yields at least one (possibly empty) token. -/
theorem splitSem_ne_nil (l : List Char) : splitSem l ≠ [] := by
  cases l with
  | nil => simp [splitSem]
  | cons c r =>
    cases h : splitSem r with
    | nil => simp [splitSem, h]
    | cons t ts => by_cases hc : c = ';' <;> simp [splitSem, h, hc]

/-- Joining the semicolon-split of a body gives the body back. -/
theorem join_split : ∀ l : List Char, joinSem (splitSem l) = l := by
  intro l
  induction l with
  | nil => rfl
  | cons c r ih =>
    cases h : splitSem r with
    | nil => exact absurd h (splitSem_ne_nil r)
    | cons t ts =>
      have e : splitSem (c :: r) =
          if c = ';' then [] :: t :: ts else (c :: t) :: ts := by
        rw [splitSem, h]
      rw [h] at ih
      rw [e]
      by_cases hc : c = ';'
      · subst hc
        rw [if_pos rfl, joinSem_cons, ← ih]
        simp
      · rw [if_neg hc]
        cases ts with
        | nil =>
          show c :: t = c :: r
          rw [show joinSem [t] = t from rfl] at ih
          rw [ih]
        | cons t' ts' =>
          rw [joinSem_cons] at ih
          rw [joinSem_cons]
          simp only [List.cons_append]
          rw [ih]

/-- C2 (counterexample): for the primary-attributes reply `"1;a;2"` (no
emulation prefix strips, so the body is the whole reply), the numeric
token `"2"` — whose code 2 is in the known-feature table, mapped to
`printer` — ends up neither in `feature_set` (which is exactly
`[col132]`) nor in `unknown_features` (which is empty): decoding stops at
the malformed token `"a"` and drops everything after it. -/
theorem c2_counterexample :
    (parse_da1 { info0 with da1_reply := "1;a;2" }).feature_set =
      [Features.col132] ∧
    (parse_da1 { info0 with da1_reply := "1;a;2" }).unknown_features = "" ∧
    knownLookup (digitsToNat "2".data) = some Features.printer := by
  decide

/-- C2 (amended): for every post-strip reply body that is a well-formed
semicolon-separated list of numeric tokens (each non-empty, all digits,
in `unsigned` range), no token is dropped: a flag is in the resulting
`feature_set` exactly when some token's code maps to it in the
known-feature table, and `unknown_features` is exactly the verbatim
semicolon-join of the unknown tokens (so the two destinations are
disjoint in content and the trailing separator is trimmed). -/
theorem c2_no_token_dropped (body : List Char)
    (hWF : ∀ tk ∈ splitSem body, WFtok tk) :
    (∀ f, f ∈ (parse_da1_body body).1 ↔
      ∃ tk, tk ∈ splitSem body ∧ knownLookup (digitsToNat tk) = some f) ∧
    (parse_da1_body body).2 =
      joinSem ((splitSem body).filter isUnknownTok) := by
  have hne : splitSem body ≠ [] := splitSem_ne_nil body
  have hj : joinSem (splitSem body) = body := join_split body
  have hlen : (joinSem (splitSem body)).length ≤ body.length := by rw [hj]
  have hl := da1_loop_join body.length (splitSem body) [] [] hWF hne hlen
  rw [hj] at hl
  have he : parse_da1_body body =
      (specFS (splitSem body) [], trimSemi ([] ++ preUF (splitSem body))) := by
    unfold parse_da1_body
    rw [hl]
  constructor
  · intro f
    have h1 : (parse_da1_body body).1 = specFS (splitSem body) [] := by rw [he]
    rw [h1, specFS_mem]
    simp
  · have h2 : (parse_da1_body body).2 =
        trimSemi ([] ++ preUF (splitSem body)) := by rw [he]
    rw [h2, List.nil_append]
    exact trim_preUF _ hWF

/-- C2 (witness): the invariant applied to the concrete body `"314;5"`
(code 314 is the capture-contour flag, code 5 is unknown). -/
theorem c2_witness :
    Features.capturecontour ∈ (parse_da1_body "314;5".data).1 ∧
    (parse_da1_body "314;5".data).2 = "5".data := by
  have h := c2_no_token_dropped "314;5".data (by decide)
  refine ⟨(h.1 Features.capturecontour).mpr ⟨"314".data, by decide, by decide⟩, ?_⟩
  rw [h.2]
  decide

/-- C7: classification is deterministic (the classifier is a pure function
of the Evidence Record) and idempotent — running it twice yields the same
`implementation` — because once `implementation` is a value other than
`unknown`, every signature predicate `is_X` short-circuits to
`implementation == X` and `is_not_vte` to `implementation != vte`. -/
theorem c7_classifier_idempotent (s : Info) :
    (classify (classify s)).implementation = (classify s).implementation ∧
    (s.implementation ≠ Implementations.unknown →
      is_st s = (s.implementation == .st) ∧
      is_alacritty s = (s.implementation == .alacritty) ∧
      is_vte s = (s.implementation == .vte) ∧
      is_not_vte s = (s.implementation != .vte) ∧
      is_rxvt s = (s.implementation == .rxvt) ∧
      is_mrxvt s = (s.implementation == .mrxvt) ∧
      is_kitty s = (s.implementation == .kitty) ∧
      is_xterm s = (s.implementation == .xterm) ∧
      is_contour s = (s.implementation == .contour) ∧
      is_terminology s = (s.implementation == .terminology) ∧
      is_konsole s = (s.implementation == .konsole) ∧
      is_eterm s = (s.implementation == .eterm) ∧
      is_qt5 s = (s.implementation == .qt5) ∧
      is_ghostty s = (s.implementation == .ghostty)) := by
  refine ⟨classify_classify s, fun h => ?_⟩
  simp [is_st, is_alacritty, is_vte, is_not_vte, is_rxvt, is_mrxvt, is_kitty,
    is_xterm, is_contour, is_terminology, is_konsole, is_eterm, is_qt5,
    is_ghostty, h]

/-- C7 (witness): the short-circuit facts at a record already classified
as VTE, and idempotence at that record. -/
theorem c7_witness :
    (classify (classify vteInfo)).implementation =
      (classify vteInfo).implementation ∧
    is_st vteInfo = (vteInfo.implementation == .st) ∧
    is_not_vte vteInfo = (vteInfo.implementation != .vte) :=
  ⟨(c7_classifier_idempotent vteInfo).1,
   ((c7_classifier_idempotent vteInfo).2 (by decide)).1,
   ((c7_classifier_idempotent vteInfo).2 (by decide)).2.2.2.1⟩

/-- The first optional block issues neither the tertiary-attributes nor
the default-color probe, and leaves the tertiary-attributes slot
untouched. -/
theorem blockQTN_spec (t : Terminal) (s : Info) :
    Probe.da3 ∉ (blockQTN t s).2 ∧ Probe.osc702 ∉ (blockQTN t s).2 ∧
    (blockQTN t s).1.da3_reply = s.da3_reply := by
  unfold blockQTN
  split
  · split
    · simp +decide [make_tn_request, make_q_request]
    · simp +decide [make_q_request]
  · simp

/-- The second optional block never issues the default-color probe; when
it issues the tertiary-attributes probe the slot afterwards holds the
transport result, otherwise the slot is untouched. -/
theorem blockDA3_spec (t : Terminal) (s : Info) :
    Probe.osc702 ∉ (blockDA3 t s).2 ∧
    (Probe.da3 ∈ (blockDA3 t s).2 →
      (blockDA3 t s).1.da3_reply = (transport (t.resp .da3) da3Pfx da3Sfx).1) ∧
    (Probe.da3 ∉ (blockDA3 t s).2 → (blockDA3 t s).1.da3_reply = s.da3_reply) := by
  unfold blockDA3
  split
  · split
    · split
      · simp +decide [make_tn_request, make_q_request, make_da3_request]
      · simp +decide [make_q_request, make_da3_request]
    · simp +decide [make_da3_request]
  · simp

/-- In the last optional block: if the default-color probe is issued, the
tertiary-attributes probe is not issued there and the slot still held the
`not_issued` sentinel on entry (provided a transport result can never look
like the sentinel). -/
theorem blockOSC_spec (t : Terminal) (s : Info)
    (h : (transport (t.resp Probe.da3) da3Pfx da3Sfx).1 ≠ not_issued) :
    Probe.osc702 ∈ (blockOSC t s).2 →
      Probe.da3 ∉ (blockOSC t s).2 ∧ s.da3_reply = not_issued := by
  unfold blockOSC
  split
  · split
    · split
      · rename_i hcond
        simp only [make_da3_request] at hcond
        exact absurd hcond h
      · simp +decide
    · split
      · rename_i hcond
        intro _
        exact ⟨by simp, hcond⟩
      · simp
  · simp

/-- The optional-probe phase issues the default-color probe only in
sessions in which the tertiary-attributes probe is never issued. -/
theorem optProbes_osc (t : Terminal) (s : Info)
    (h : (transport (t.resp Probe.da3) da3Pfx da3Sfx).1 ≠ not_issued) :
    Probe.osc702 ∈ (optProbes t s).2 → Probe.da3 ∉ (optProbes t s).2 := by
  unfold optProbes
  split
  · intro hm
    obtain ⟨hA1, hA2, -⟩ := blockQTN_spec t s
    obtain ⟨hB1, hB2, -⟩ := blockDA3_spec t (blockQTN t s).1
    have hm3 : Probe.osc702 ∈ (blockOSC t (blockDA3 t (blockQTN t s).1).1).2 := by
      rcases List.mem_append.1 hm with h' | h'
      · rcases List.mem_append.1 h' with h'' | h''
        · exact absurd h'' hA2
        · exact absurd h'' hB1
      · exact h'
    obtain ⟨hC1, hC2⟩ := blockOSC_spec t (blockDA3 t (blockQTN t s).1).1 h hm3
    have hda3tr2 : Probe.da3 ∉ (blockDA3 t (blockQTN t s).1).2 := by
      intro hmem
      rw [hB2 hmem] at hC2
      exact h hC2
    intro hmem
    rcases List.mem_append.1 hmem with h' | h'
    · rcases List.mem_append.1 h' with h'' | h''
      · exact hA1 h''
      · exact hda3tr2 h''
    · exact hC1 h'
  · simp

/-- C6 (counterexample): on the all-timeout terminal the
tertiary-attributes probe is issued and times out (the slot holds the
"no reply" sentinel), the kitty/mrxvt exclusions do not apply
(implementation stays `unknown`), and yet the default-color query is not
attempted — the code requires the slot to hold the "not issued" sentinel,
not the "no reply" one. -/
theorem c6_counterexample :
    Probe.da3 ∈ sessionTrace timeoutT ∧
    (sessionInfo timeoutT).map Info.da3_reply = some no_reply ∧
    Probe.osc702 ∉ sessionTrace timeoutT ∧
    (sessionInfo timeoutT).map Info.implementation =
      some Implementations.unknown := by
  decide

/-- C6 (amended): in every detection session (over a terminal whose
tertiary-attributes transport result never spells the `not_issued`
sentinel) the default-color query is attempted only if the
tertiary-attributes probe is never issued; in particular a
tertiary-attributes probe that timed out suppresses the default-color
query. -/
theorem c6_osc702_only_when_da3_unissued (t : Terminal)
    (h : (transport (t.resp Probe.da3) da3Pfx da3Sfx).1 ≠ not_issued) :
    Probe.osc702 ∈ sessionTrace t → Probe.da3 ∉ sessionTrace t := by
  intro hm
  have h1 : Probe.osc702 ∈ (optProbes t (afterMandatory t)).2 := by
    simpa +decide [sessionTrace] using hm
  have h2 := optProbes_osc t (afterMandatory t) h h1
  simpa +decide [sessionTrace] using h2

/-- C6 (witness): on the rxvt fixture the default-color probe is issued
and, by the theorem, the tertiary-attributes probe is not. -/
theorem c6_witness :
    Probe.osc702 ∈ sessionTrace rxvtT ∧ Probe.da3 ∉ sessionTrace rxvtT :=
  ⟨by decide, c6_osc702_only_when_da3_unissued rxvtT (by decide) (by decide)⟩

/-- C1 (counterexample): on the VTE-family fixture the produced
`implementation_version` is `"0.96"`, not `"96"` as claimed — after folding
`9600;1` into `vn = 960001`, the VTE branch divides by 100 and the
formatter prints `960001 / 100 = 9600` as `0.96` (`9600 / 10000 = 0`
major, `96` minor). -/
theorem c1_counterexample :
    (sessionInfo vteT).map Info.implementation_version ≠ some "96" ∧
    (sessionInfo vteT).map Info.implementation_version = some "0.96" := by
  decide

/-- C1 (amended): the VTE-signature fixture (primary `"65;1;9"`, secondary
`"65;9600;1"`, tertiary `"7E565445"`, default-color absent) yields
`implementation = vte`, `emulation = vt525` resolved from the `"65;"`
prefix, version text `"0.96"`, and the name/version, terminfo-name and
default-color probes are never issued. -/
theorem c1_vte_end_to_end :
    (sessionInfo vteT).map Info.implementation = some Implementations.vte ∧
    (sessionInfo vteT).map Info.emulation = some Emulations.vt525 ∧
    (sessionInfo vteT).map Info.implementation_version = some "0.96" ∧
    Probe.q ∉ sessionTrace vteT ∧ Probe.tn ∉ sessionTrace vteT ∧
    Probe.osc702 ∉ sessionTrace vteT := by
  decide

/-- C3 (counterexample): in a concrete session the first two probes are
the secondary-attributes probe and then the primary-attributes probe —
not primary first as claimed. -/
theorem c3_counterexample :
    (sessionTrace timeoutT).take 2 ≠ [Probe.da1, Probe.da2] ∧
    (sessionTrace timeoutT).take 2 = [Probe.da2, Probe.da1] := by
  decide

/-- C3 (amended): in every detection session the two mandatory probes are
sent before any decision point, with the secondary-attributes (DA2) probe
first and the primary-attributes (DA1) probe second, in that fixed
order. -/
theorem c3_mandatory_order (t : Terminal) :
    (sessionTrace t).take 2 = [Probe.da2, Probe.da1] := rfl

/-- C3 (witness): the mandatory-probe order at the VTE fixture. -/
theorem c3_witness :
    (sessionTrace vteT).take 2 = [Probe.da2, Probe.da1] :=
  c3_mandatory_order vteT

/-- C4: whenever the raw-mode switch succeeded, `make_request` restores
the device's mode attributes to exactly their prior value on every path
(successful reply, read failure, write failure, timeout); when the switch
itself fails, the call returns with the device untouched — in particular
without writing the request. -/
theorem c4_mode_restoration (d : Device) (res0 req pfx sfx : String) :
    (d.rawSwitchOk = true →
      (make_request d res0 req pfx sfx).dev.attrs = d.attrs) ∧
    (d.rawSwitchOk = false → (make_request d res0 req pfx sfx).dev = d) := by
  constructor
  · intro h
    cases hw : d.writeOk <;> cases hr : d.readRes <;>
      simp [make_request, h, hw, hr]
  · intro h
    simp [make_request, h]

/-- C4 (witness): the restoration guarantee at a concrete timing-out
device, and the no-write guarantee at a concrete background device. -/
theorem c4_witness :
    (make_request devOk "" "\x1b[c" da1Pfx da1Sfx).dev.attrs = devOk.attrs ∧
    (make_request devBg "" "\x1b[c" da1Pfx da1Sfx).dev = devBg :=
  ⟨(c4_mode_restoration devOk "" "\x1b[c" da1Pfx da1Sfx).1 rfl,
   (c4_mode_restoration devBg "" "\x1b[c" da1Pfx da1Sfx).2 rfl⟩

/-- C5: with both mandatory probes timed out and `TERM=eterm`,
classification is indeed finalized to `emacsterm` from the string alone —
but, contrary to the claim and to the source's own comment ("any request
other than DA1 and DA2 must be avoided"), the name/version, terminfo-name
and tertiary-attributes probes are still issued, because the guard
`!is_eterm()` does not cover the `emacsterm` value. -/
theorem c5_emacsterm_probed :
    (sessionInfo etermT).map Info.implementation = some Implementations.emacsterm ∧
    (sessionInfo etermT).map Info.emulation = some Emulations.vt100 ∧
    Probe.q ∈ sessionTrace etermT ∧ Probe.tn ∈ sessionTrace etermT ∧
    Probe.da3 ∈ sessionTrace etermT := by
  decide

/-- C8 (counterexample): decoding the secondary-attributes reply `"1;2"`
does not produce version text `"1.2"` — the whole reply is consumed as the
known-emulations prefix `"1;2"` (VT100 with Advanced Video Option). -/
theorem c8_counterexample :
    (parse_da2 { info0 with da2_reply := "1;2" }).implementation_version ≠ "1.2" := by
  decide

/-- C8 (amended): the secondary-attributes reply `"1;2"` matches the
known-emulations table entry `("1;2", vt100avo)`, leaving an empty version
body: both emulation fields become `vt100avo`, `implementation_version`
stays empty and the numeric accumulator stays 0. -/
theorem c8_da2_table_match :
    (parse_da2 { info0 with da2_reply := "1;2" }).emulation = Emulations.vt100avo ∧
    (parse_da2 { info0 with da2_reply := "1;2" }).da2_emulation = Emulations.vt100avo ∧
    (parse_da2 { info0 with da2_reply := "1;2" }).implementation_version = "" ∧
    (parse_da2 { info0 with da2_reply := "1;2" }).vn = 0 := by
  decide

/-- C9 (counterexample): with `DISPLAY` present but empty — a value that
does not start with a colon, the case the claim singles out — the delay is
initialized to 100 ms, not 500 ms. -/
theorem c9_counterexample :
    init_request_delay none (some "") = some 100 ∧
    ¬ ("" : String).data.head? = some ':' := by
  decide

/-- C9 (amended): the process-wide delay, when already set, is left
unchanged; when unset it becomes 500 ms exactly if `DISPLAY` is present,
non-empty and does not start with a colon, and 100 ms otherwise (absent,
empty, or colon-initial — in particular the empty string gives 100 ms). -/
theorem c9_delay_policy (cur : Option Nat) (disp : Option String) :
    (∀ v, cur = some v → init_request_delay cur disp = some v) ∧
    (cur = none → ∀ d, disp = some d → d ≠ "" → d.data.head? ≠ some ':' →
      init_request_delay cur disp = some 500) ∧
    (cur = none → ∀ d, disp = some d → (d = "" ∨ d.data.head? = some ':') →
      init_request_delay cur disp = some 100) ∧
    (cur = none → disp = none → init_request_delay cur disp = some 100) := by
  refine ⟨fun v hv => ?_, fun hc d hd hne hcol => ?_, fun hc d hd hor => ?_,
    fun hc hd => ?_⟩
  · subst hv; rfl
  · subst hc; subst hd
    obtain ⟨l⟩ := d
    cases l with
    | nil => exact absurd rfl hne
    | cons c r =>
      have hco : c ≠ ':' := by
        intro h; exact hcol (by simp [h])
      simp [init_request_delay, get_default_request_delay, hco]
  · subst hc; subst hd
    obtain ⟨l⟩ := d
    cases l with
    | nil => rfl
    | cons c r =>
      rcases hor with h | h
      · exact absurd (congrArg String.data h) (by simp)
      · have : c = ':' := by simpa using h
        simp [init_request_delay, get_default_request_delay, this]
  · subst hc; subst hd; rfl

/-- C9 (witness): the theorem applied at a remote-looking display value
and at an already-set delay. -/
theorem c9_witness :
    init_request_delay none (some "remote:0.0") = some 500 ∧
    init_request_delay (some 250) (some "") = some 250 :=
  ⟨(c9_delay_policy none (some "remote:0.0")).2.1 rfl "remote:0.0" rfl
      (by decide) (by decide),
   (c9_delay_policy (some 250) (some "")).1 250 rfl⟩

/-- C10: the version extraction for a terminology-classified session is
not bounds-safe: a name/version reply of exactly the 11-character word
`"terminology"` is accepted by the predicate, classification sets
`terminology`, and `q_reply.substr(12)` then starts past the end of the
string, throwing `std::out_of_range` (modelled as `none`). -/
theorem c10_substr_out_of_range :
    sessionInfo terminologyT = none ∧
    (classify (probedInfo terminologyT)).implementation =
      Implementations.terminology ∧
    (probedInfo terminologyT).q_reply = "terminology" := by
  decide

end Termdetect
